import Mathlib

/-!
Shallow embedding of the wiki-to-Markdown conversion engine of
`wiki_to_md/impl/converter.py`, `formatting_handler.py` and
`pragma_handler.py`, together with proofs about the claims C1..C10.

Conventions used throughout:
* Python stacks (`self._indents`, `self._open_tags`, `self._plugin_stack`,
  `self._format_buffer`) keep their top at the END of the Python list; the
  Lean embedding keeps the top at the HEAD of a Lean `List`, so Python
  `list[-1]`, `append`, `pop` become `head`, `cons`, `tail`.
* Calls into the formatting handler and the warning method are modelled as
  events of the inductive type `Ev`; `Ev.write` models `_Write`,
  `Ev.text` models `HandleText`, `Ev.escapedText` models
  `HandleEscapedText`, `Ev.warn` models `warning_method`.
* Machine integers do not occur (Python integers are unbounded); Python
  `list[i]` indexing that can raise `IndexError` is modelled with
  `List.get?`, and a function that can raise returns an `Option`, `none`
  standing for the uncaught exception.
-/

namespace WikiToMd

/-- Events emitted by the converter: each constructor models one call into
the formatting handler (or the warning callback) of the Python source. -/
inductive Ev
  | write (s : String)
  | text (s : String)
  | escapedText (s : String)
  | warn (s : String)
  | listClose
  | numericListOpen (lvl : Nat)
  | bulletListOpen (lvl : Nat)
  | blockQuoteOpen (lvl : Nat)
  | htmlListOpen (lvl : Nat) (kind : String)
  | paragraphBreak
  | tableClose
  | headerOpen (lvl : Nat)
  | headerClose (lvl : Nat)
  | dispatchText (s : String)
  | link (url : String) (desc : Option String)
  | htmlOpen (tag : String)
  | htmlClose (tag : String)
  | codeBlockClose
  | gplusClose
  | commentClose
  | videoClose
  | tagClose (tag : String)
  deriving DecidableEq, Repr

/-- The substring relation on strings, used to state that a warning message
contains a given phrase. -/
def StrContains (w pat : String) : Prop := pat.data <:+: w.data

instance (w pat : String) : Decidable (StrContains w pat) :=
  List.decidableInfix pat.data w.data

theorem strContains_appendR (w₁ w₂ pat : String) (h : StrContains w₂ pat) :
    StrContains (w₁ ++ w₂) pat := by
  unfold StrContains at *
  rw [String.data_append]
  exact h.trans ⟨w₁.data, [], by simp⟩

theorem strContains_appendL (w₁ w₂ pat : String) (h : StrContains w₁ pat) :
    StrContains (w₁ ++ w₂) pat := by
  unfold StrContains at *
  rw [String.data_append]
  exact h.trans ⟨[], w₂.data, by simp⟩

/-- Repeated string, modelling Python `s * n` (for strings). -/
def strRepeat (s : String) (n : Nat) : String := String.join (List.replicate n s)

/-- Python `str.strip()`: drop leading and trailing whitespace. Implemented
over the character list so that it evaluates by kernel reduction. -/
def pyStrip (s : String) : String :=
  String.mk (((s.data.dropWhile Char.isWhitespace).reverse.dropWhile
    Char.isWhitespace).reverse)

/-! ### Constants (`wiki_to_md/impl/constants.py`) -/

/-- `constants.PRAGMA_NAMES`. -/
def PRAGMA_NAMES : List String := ["summary", "labels", "sidebar"]

/-- `constants.LIST_TYPES`: the dict maps `"1"` and `"#"` to `"numeric"`,
`"*"` to `"bullet"`, `" "` to `"blockquote"`, and `.get` defaults every
other character to `"blockquote"`. -/
def LIST_TYPES (c : Char) : String :=
  if c = '1' then "numeric"
  else if c = '#' then "numeric"
  else if c = '*' then "bullet"
  else if c = ' ' then "blockquote"
  else "blockquote"

/-- Keys of `Converter._ALLOWED_HTML_TAGS` (only membership is needed). -/
def ALLOWED_HTML_TAGS : List String :=
  ["a", "b", "br", "blockquote", "code", "dd", "div", "dl", "dt", "em",
   "font", "h1", "h2", "h3", "h4", "h5", "i", "img", "li", "ol", "p",
   "pre", "q", "s", "span", "strike", "strong", "sub", "sup", "table",
   "tbody", "td", "tfoot", "th", "thead", "tr", "tt", "u", "ul", "var"]

/-- `Converter._RAW_PLUGINS`. -/
def RAW_PLUGINS : List String := ["code", "wiki:comment", "pre"]

/-- `FormattingHandler._SINGLE_INDENTATION` (two spaces). -/
def SINGLE_INDENTATION : String := "  "

/-! ### C10: numeric list rendering (`FormattingHandler.HandleNumericListOpen`) -/

/-- `FormattingHandler.HandleNumericListOpen`: in HTML mode delegate to the
HTML list machinery; otherwise write the indentation (`_Indent`) and the
fixed marker `"1. "` — "just using any number implies a numbered item".
The two `Ev.write` events model the two `_Write` calls; `_Write` ignores
an empty string, so at indentation level 0 the first call writes nothing. -/
def HandleNumericListOpen (inHtml : Nat) (indentationLevel : Nat) : List Ev :=
  if inHtml ≠ 0 then [Ev.htmlListOpen indentationLevel "Numeric list"]
  else [Ev.write (strRepeat SINGLE_INDENTATION indentationLevel), Ev.write "1. "]

/-- C10: in plain-Markdown mode (HTML depth 0) a numeric list item is
emitted as its indentation followed by the literal marker `"1. "`, and both
source symbols `1` and `#` classify as the numeric list kind, so the marker
is independent of which of them appeared in the source line. -/
theorem HandleNumericListOpen_marker (c : Char) (lvl : Nat) (h : c = '1' ∨ c = '#') :
    LIST_TYPES c = "numeric" ∧
    HandleNumericListOpen 0 lvl =
      [Ev.write (strRepeat SINGLE_INDENTATION lvl), Ev.write "1. "] := by
  constructor
  · rcases h with h | h <;> rw [h] <;> rfl
  · rfl

/-- Witness for C10 at the source symbol `#` and indentation level 2. -/
theorem HandleNumericListOpen_marker_witness :
    LIST_TYPES '#' = "numeric" ∧
    HandleNumericListOpen 0 2 =
      [Ev.write (strRepeat SINGLE_INDENTATION 2), Ev.write "1. "] :=
  HandleNumericListOpen_marker '#' 2 (Or.inr rfl)

/-! ### C5: inline code (`FormattingHandler.HandleInlineCode`) -/

/-- The backtick character (codepoint 96). -/
def backquote : Char := Char.ofNat 96

/-- `cgi.escape` (without quote escaping): replace `&`, `<`, `>`. -/
def cgiEscape (s : String) : String :=
  ((s.replace "&" "&amp;").replace "<" "&lt;").replace ">" "&gt;"

/-- The counting loop of `HandleInlineCode`: `cur` is
`consecutive_ticks`, `m` is `max_consecutive_ticks`. -/
def maxTicksGo : List Char → Nat → Nat → Nat
  | [], _, m => m
  | c :: rest, cur, m =>
    if c = backquote then maxTicksGo rest (cur + 1) (max m (cur + 1))
    else maxTicksGo rest 0 m

/-- The `max_consecutive_ticks` value computed by `HandleInlineCode`. -/
def maxConsecutiveTicks (code : String) : Nat := maxTicksGo code.data 0 0

/-- The `surrounding_ticks` fence of `HandleInlineCode`:
one backtick more than the longest run inside the code. -/
def surroundingTicks (code : String) : String :=
  String.mk (List.replicate (maxConsecutiveTicks code + 1) backquote)

/-- `FormattingHandler.HandleInlineCode`: in HTML mode emit a `code`
element with `cgi.escape`d contents; otherwise write the code between
backtick fences, separated by single spaces. -/
def HandleInlineCode (inHtml : Nat) (code : String) : List Ev :=
  if inHtml ≠ 0 then
    [Ev.htmlOpen "code", Ev.text (cgiEscape code), Ev.htmlClose "code"]
  else
    [Ev.write (surroundingTicks code ++ " " ++ code ++ " " ++ surroundingTicks code)]

theorem maxTicksGo_mono : ∀ (l : List Char) (cur cur' m m' : Nat),
    cur ≤ cur' → m ≤ m' → maxTicksGo l cur m ≤ maxTicksGo l cur' m'
  | [], _, _, _, _, _, hm => hm
  | c :: rest, cur, cur', m, m', hc, hm => by
    by_cases h : c = backquote
    · simp only [maxTicksGo, if_pos h]
      exact maxTicksGo_mono rest _ _ _ _ (by omega)
        (max_le_max hm (by omega))
    · simp only [maxTicksGo, if_neg h]
      exact maxTicksGo_mono rest 0 0 m m' le_rfl hm

theorem maxTicksGo_ge : ∀ (l : List Char) (cur m : Nat), m ≤ maxTicksGo l cur m
  | [], _, _ => le_rfl
  | c :: rest, cur, m => by
    by_cases h : c = backquote
    · simp only [maxTicksGo, if_pos h]
      exact le_trans (le_max_left m (cur + 1)) (maxTicksGo_ge rest _ _)
    · simp only [maxTicksGo, if_neg h]
      exact maxTicksGo_ge rest 0 m

theorem maxTicksGo_run : ∀ (l₂ l₃ : List Char) (cur m : Nat),
    (∀ c ∈ l₂, c = backquote) → l₂ ≠ [] →
    cur + l₂.length ≤ maxTicksGo (l₂ ++ l₃) cur m
  | [], _, _, _, _, hne => absurd rfl hne
  | c :: rest, l₃, cur, m, hb, _ => by
    have hc : c = backquote := hb c (List.mem_cons_self c rest)
    simp only [List.cons_append, maxTicksGo, if_pos hc]
    cases rest with
    | nil =>
      have h1 := maxTicksGo_ge l₃ (cur + 1) (max m (cur + 1))
      have h2 : cur + 1 ≤ max m (cur + 1) := le_max_right m (cur + 1)
      simpa using le_trans h2 h1
    | cons d t =>
      have hrec := maxTicksGo_run (d :: t) l₃ (cur + 1) (max m (cur + 1))
        (fun x hx => hb x (List.mem_cons_of_mem c hx)) (by simp)
      calc cur + (c :: d :: t).length = (cur + 1) + (d :: t).length := by
            simp [List.length_cons]; omega
        _ ≤ _ := hrec

theorem maxTicksGo_drop : ∀ (l₁ r : List Char),
    maxTicksGo r 0 0 ≤ maxTicksGo (l₁ ++ r) 0 0
  | [], _ => le_rfl
  | c :: rest, r => by
    by_cases h : c = backquote
    · simp only [List.cons_append, maxTicksGo, if_pos h]
      exact le_trans (maxTicksGo_drop rest r)
        (maxTicksGo_mono (rest ++ r) 0 1 0 (max 0 1) (by omega) (by omega))
    · simp only [List.cons_append, maxTicksGo, if_neg h]
      exact maxTicksGo_drop rest r

theorem run_le_maxConsecutiveTicks (code : String) (l₁ l₂ l₃ : List Char)
    (hd : code.data = l₁ ++ l₂ ++ l₃) (hb : ∀ c ∈ l₂, c = backquote) :
    l₂.length ≤ maxConsecutiveTicks code := by
  rcases eq_or_ne l₂ [] with h | h
  · simp [h]
  · have h1 : 0 + l₂.length ≤ maxTicksGo (l₂ ++ l₃) 0 0 :=
      maxTicksGo_run l₂ l₃ 0 0 hb h
    have h2 : maxTicksGo (l₂ ++ l₃) 0 0 ≤ maxTicksGo (l₁ ++ (l₂ ++ l₃)) 0 0 :=
      maxTicksGo_drop l₁ (l₂ ++ l₃)
    have h3 : code.data = l₁ ++ (l₂ ++ l₃) := by rw [hd, List.append_assoc]
    unfold maxConsecutiveTicks
    rw [h3]
    omega

/-- C5: in non-HTML mode `HandleInlineCode` writes the code surrounded by
backtick fences of length exactly one more than the longest run of
consecutive backticks inside the code, so no run of backticks inside the
content can match the fence and close it early. -/
theorem HandleInlineCode_fence (code : String) (l₁ l₂ l₃ : List Char)
    (hd : code.data = l₁ ++ l₂ ++ l₃) (hb : ∀ c ∈ l₂, c = backquote) :
    (surroundingTicks code).length = maxConsecutiveTicks code + 1 ∧
    (∀ c ∈ (surroundingTicks code).data, c = backquote) ∧
    HandleInlineCode 0 code =
      [Ev.write (surroundingTicks code ++ " " ++ code ++ " " ++ surroundingTicks code)] ∧
    l₂.length < (surroundingTicks code).length := by
  refine ⟨?_, ?_, rfl, ?_⟩
  · simp [surroundingTicks, String.length]
  · intro c hc
    simpa [surroundingTicks] using List.eq_of_mem_replicate hc
  · have h := run_le_maxConsecutiveTicks code l₁ l₂ l₃ hd hb
    have h2 : (surroundingTicks code).length = maxConsecutiveTicks code + 1 := by
      simp [surroundingTicks, String.length]
    omega

/-- Witness for C5 at the concrete content `a` backtick backtick `b`:
the fence has three backticks and strictly majorizes the two-backtick run. -/
theorem HandleInlineCode_fence_witness :
    ((String.mk ['a', backquote, backquote, 'b']).data =
        ['a'] ++ [backquote, backquote] ++ ['b'] ∧
      ∀ c ∈ [backquote, backquote], c = backquote) ∧
    ((surroundingTicks (String.mk ['a', backquote, backquote, 'b'])).length =
        maxConsecutiveTicks (String.mk ['a', backquote, backquote, 'b']) + 1 ∧
      (∀ c ∈ (surroundingTicks (String.mk ['a', backquote, backquote, 'b'])).data,
        c = backquote) ∧
      HandleInlineCode 0 (String.mk ['a', backquote, backquote, 'b']) =
        [Ev.write (surroundingTicks (String.mk ['a', backquote, backquote, 'b']) ++ " " ++
          String.mk ['a', backquote, backquote, 'b'] ++ " " ++
          surroundingTicks (String.mk ['a', backquote, backquote, 'b']))] ∧
      ([backquote, backquote] : List Char).length <
        (surroundingTicks (String.mk ['a', backquote, backquote, 'b'])).length) :=
  ⟨⟨rfl, by decide⟩,
    HandleInlineCode_fence (String.mk ['a', backquote, backquote, 'b'])
      ['a'] [backquote, backquote] ['b'] rfl (by decide)⟩

/-! ### C4: list nesting (`Converter._SetCurrentList`) -/

/-- The pop loop of `_SetCurrentList`: pop-and-close entries while the top
indent is `≥ indent_pos`, stopping early when the top equals the requested
position and kind. Returns the remaining stack and the number of pops
(each pop emits one `HandleListClose`). The stack top is the list head. -/
def PopIndents : List (Nat × String) → Nat → String → List (Nat × String) × Nat
  | [], _, _ => ([], 0)
  | (i, k) :: rest, pos, ty =>
    if pos ≤ i then
      if i = pos ∧ k = ty then ((i, k) :: rest, 0)
      else
        let r := PopIndents rest pos ty
        (r.1, r.2 + 1)
    else ((i, k) :: rest, 0)

/-- The list-open event dispatch at the end of `_SetCurrentList`:
`HandleNumericListOpen` / `HandleBulletListOpen` / `HandleBlockQuoteOpen`
by kind, and a warning for any other kind string. -/
def listOpenEvs (ty : String) (lvl : Nat) : List Ev :=
  if ty = "numeric" then [Ev.numericListOpen lvl]
  else if ty = "bullet" then [Ev.bulletListOpen lvl]
  else if ty = "blockquote" then [Ev.blockQuoteOpen lvl]
  else [Ev.warn ("Bad list type: \x27" ++ ty ++ "\x27")]

/-- `Converter._SetCurrentList`: pop-and-close as long as the top indent is
`≥ indent_pos` (unless top is an exact continuation), report "not in a
list" when `indent_pos` is 0, push a new entry when the position is new,
and emit the list-open event for the resulting nesting depth. Returns the
new `_indents` stack, the boolean result, and the emitted events. -/
def SetCurrentList (indents : List (Nat × String)) (pos : Nat) (ty : String) :
    List (Nat × String) × Bool × List Ev :=
  let pr := PopIndents indents pos ty
  let closeEvs := List.replicate pr.2 Ev.listClose
  if pos = 0 then (pr.1, false, closeEvs)
  else
    match pr.1 with
    | [] => ([(pos, ty)], true, closeEvs ++ listOpenEvs ty 1)
    | top :: rest =>
      if pos ≥ top.1 then
        if pos > top.1 then
          ((pos, ty) :: top :: rest, true,
            closeEvs ++ listOpenEvs ty ((pos, ty) :: top :: rest).length)
        else (top :: rest, true, closeEvs ++ listOpenEvs ty (top :: rest).length)
      else (top :: rest, true, closeEvs)

/-- The invariant of the `_indents` stack: indent columns are strictly
increasing from bottom to top; with the top at the head this means each
entry strictly exceeds the one below it. -/
def StrictIndents (l : List (Nat × String)) : Prop :=
  l.Chain' (fun a b => b.1 < a.1)

instance (l : List (Nat × String)) : Decidable (StrictIndents l) :=
  inferInstanceAs (Decidable (l.Chain' (fun a b : Nat × String => b.1 < a.1)))

theorem PopIndents_suffix : ∀ (l : List (Nat × String)) (pos : Nat) (ty : String),
    (PopIndents l pos ty).1 <:+ l
  | [], _, _ => List.nil_suffix
  | (i, k) :: rest, pos, ty => by
    simp only [PopIndents]
    by_cases h1 : pos ≤ i
    · by_cases h2 : i = pos ∧ k = ty
      · simp only [if_pos h1, if_pos h2]
        exact List.suffix_refl _
      · simp only [if_pos h1, if_neg h2]
        exact (PopIndents_suffix rest pos ty).trans (List.suffix_cons (i, k) rest)
    · simp only [if_neg h1]
      exact List.suffix_refl _

/-- C4: `_SetCurrentList` preserves the strictly-increasing-indent
invariant of the `_indents` stack, for every requested indent position and
list kind; since `_indents` is mutated only through `_SetCurrentList`, the
invariant holds after each processed line. -/
theorem SetCurrentList_strict (indents : List (Nat × String)) (pos : Nat)
    (ty : String) (h : StrictIndents indents) :
    StrictIndents (SetCurrentList indents pos ty).1 := by
  have hch : StrictIndents (PopIndents indents pos ty).1 :=
    h.suffix (PopIndents_suffix indents pos ty)
  simp only [SetCurrentList]
  by_cases h0 : pos = 0
  · simpa [if_pos h0] using hch
  · simp only [if_neg h0]
    rcases heq : (PopIndents indents pos ty).1 with _ | ⟨top, rest⟩
    · exact List.chain'_singleton _
    · rw [heq] at hch
      by_cases hge : pos ≥ top.1
      · by_cases hgt : pos > top.1
        · simp only [if_pos hge, if_pos hgt]
          exact List.Chain'.cons hgt hch
        · simpa [if_pos hge, if_neg hgt] using hch
      · simpa [if_neg hge] using hch

/-- Witness for C4 at the concrete stack (top first) `[(4, bullet), (2, numeric)]`
and the request `(3, bullet)`: the top is popped, `(3, bullet)` pushed. -/
theorem SetCurrentList_strict_witness :
    StrictIndents [(4, "bullet"), (2, "numeric")] ∧
    StrictIndents (SetCurrentList [(4, "bullet"), (2, "numeric")] 3 "bullet").1 :=
  ⟨by norm_num [StrictIndents, List.chain'_cons, List.chain'_singleton],
    SetCurrentList_strict [(4, "bullet"), (2, "numeric")] 3 "bullet"
      (by norm_num [StrictIndents, List.chain'_cons, List.chain'_singleton])⟩

/-! ### C2: blank-line handling (`Converter._ProcessLine`, `_CloseTags`) -/

/-- Python `list.remove`: remove the first occurrence of `t` (the Python
call raises if `t` is absent; in `_CloseTag` the element is always
present, so the absent case leaves the list unchanged here). -/
def pyRemove (xs : List String) (t : String) : List String :=
  match xs with
  | [] => []
  | x :: rest => if x = t then rest else x :: pyRemove rest t

/-- The loop of `Converter._CloseTags` with Python `for`-over-a-mutating-list
semantics: the iterator advances an index over `_open_tags` while
`_CloseTag` removes the closed tag from the same list. `fuel` bounds the
recursion (the original list length always suffices, because each step
advances the index and shortens the list). Returns the closed tags in
closing order and the final contents of `_open_tags`. -/
def CloseTagsGo : Nat → Nat → List String → List String × List String
  | 0, _, l => ([], l)
  | fuel + 1, i, l =>
    if h : i < l.length then
      let t := l.get ⟨i, h⟩
      let r := CloseTagsGo fuel (i + 1) (pyRemove l t)
      (t :: r.1, r.2)
    else ([], l)

/-- `Converter._CloseTags`: close "all" open tags. Returns the list of
tags actually closed (in order) and the final `_open_tags` list. -/
def CloseTags (l : List String) : List String × List String :=
  CloseTagsGo l.length 0 l

/-- The converter state fields touched by the blank-line branch of
`Converter._ProcessLine` (`_indents`, `_open_tags`, `_table_columns`,
`_table_column`, `_plugin_stack`); stack tops are list heads. -/
structure ConvState where
  indents : List (Nat × String)
  openTags : List String
  tableColumns : List Nat
  tableColumn : Nat
  pluginStack : List (String × List (String × String))
  deriving DecidableEq, Repr

/-- `Converter._ConsumeTextForPlugin`: the top of the plugin stack is a
raw-text plugin. -/
def ConsumeTextForPlugin (pluginStack : List (String × List (String × String))) : Bool :=
  match pluginStack with
  | [] => false
  | top :: _ => top.1 ∈ RAW_PLUGINS

/-- The blank-line branch of `Converter._ProcessLine` (the
`if not stripped_line:` block): unless a raw plugin is consuming text,
reset the list stack via `_SetCurrentList(input_line, 0, " ")`, run
`_CloseTags`, close the table if any and clear the table state;
then always emit the paragraph break. -/
def ProcessBlankLine (st : ConvState) : ConvState × List Ev :=
  if ConsumeTextForPlugin st.pluginStack then (st, [Ev.paragraphBreak])
  else
    let sc := SetCurrentList st.indents 0 " "
    let ct := CloseTags st.openTags
    let tableEvs := if st.tableColumns ≠ [] then [Ev.tableClose] else []
    ({ st with indents := sc.1, openTags := ct.2, tableColumns := [], tableColumn := 0 },
      sc.2.2 ++ ct.1.map Ev.tagClose ++ tableEvs ++ [Ev.paragraphBreak])

/-- C2 (code bug): on a blank line with the two spans `Bold` and `Italic`
open (input such as the line `*a _b` followed by a blank line), the
`for`-loop of `_CloseTags` iterates over the very list that `_CloseTag`
shrinks, so only `Bold` is closed and `Italic` survives in `_open_tags`,
contradicting the claim (and the docstring of `_CloseTags`) that every
open span is closed; the list stack, the table state and the paragraph
break behave as claimed. -/
theorem ProcessBlankLine_skips_open_tag :
    ProcessBlankLine ⟨[(2, "bullet")], ["Bold", "Italic"], [3], 1, []⟩ =
      (⟨[], ["Italic"], [], 0, []⟩,
        [Ev.listClose, Ev.tagClose "Bold", Ev.tableClose, Ev.paragraphBreak]) ∧
    (["Italic"] : List String) ≠ [] := ⟨rfl, by decide⟩

/-! ### C1: no-abort claim (`Converter._HandleTableCell`, body-row padding) -/

/-- The cell-width step of `Converter._HandleTableCell` (lines 696–712):
in the header row (`_table_column == 0`) append the measured width to
`_table_columns`; in a body row look up the header width of the current
column — Python `self._table_columns[self._table_column - 1]`, which
raises `IndexError` when the body row has more cells than the header row
(modelled by `none`) — emit right-padding when the header cell was wider,
and advance `_table_column`. Returns the new `(_table_columns,
_table_column)` and the emitted events. -/
def HandleTableCellWidth (tableColumns : List Nat) (tableColumn : Nat)
    (cellWidth : Nat) : Option (List Nat × Nat × List Ev) :=
  if tableColumn = 0 then some (tableColumns ++ [cellWidth], tableColumn, [])
  else
    match tableColumns.get? (tableColumn - 1) with
    | none => none
    | some headerCellWidth =>
      let remainingWidth : Int := (headerCellWidth : Int) - (cellWidth : Int)
      let evs :=
        if 0 < remainingWidth then [Ev.escapedText (strRepeat " " remainingWidth.toNat)]
        else []
      some (tableColumns, tableColumn + 1, evs)

/-- C1 (code bug): a header row with one cell records one column width;
the first cell of the following body row is padded normally, but its
second cell indexes `_table_columns[1]`, which does not exist — the Python
code raises an uncaught `IndexError` (modelled by `none`) instead of
degrading with a warning, so a table body row with more cells than its
header row aborts the conversion. -/
theorem HandleTableCellWidth_aborts :
    HandleTableCellWidth [] 0 3 = some ([3], 0, []) ∧
    HandleTableCellWidth [3] 1 1 = some ([3], 2, [Ev.escapedText "  "]) ∧
    HandleTableCellWidth [3] 2 1 = none :=
  ⟨rfl, rfl, rfl⟩

/-! ### C3: pragma extraction (`constants.PRAGMA_RE`,
`Converter._ExtractPragmas`, `PragmaHandler.HandlePragma`) -/

/-- `constants.PRAGMA_RE.match(line)`: the regex
`^#(summary|labels|sidebar)(.*)$` applied to one input line (which carries
at most one trailing newline, matched by `$`). The alternation is tried in
declaration order and `(.*)` takes the remainder of the line. Returns the
two groups on success. -/
def pragmaMatch (line : String) : Option (String × String) :=
  let core := if line.data.getLast? = some '\n' then line.data.dropLast else line.data
  if core.contains '\n' then none
  else
    match core with
    | '#' :: rest =>
      PRAGMA_NAMES.findSome? (fun n =>
        if n.data.isPrefixOf rest then some (n, String.mk (rest.drop n.data.length))
        else none)
    | _ => none

/-- `PragmaHandler.HandlePragma`: one warning per pragma; `summary` and
`sidebar` get dedicated messages, every other matched type falls into the
"has been ignored" message. Returns the warning text. -/
def HandlePragma (pragmaType pragmaValue : String) : String :=
  if pragmaType = "summary" then
    "A summary pragma was used for this wiki:\n\t" ++ pragmaValue ++
      "\nConsider moving it to an introductory paragraph."
  else if pragmaType = "sidebar" then
    "A sidebar pragma was used for this wiki:\n\t" ++ pragmaValue ++
      "\nThe Gollum wiki system supports sidebars, and by converting " ++ pragmaValue ++
      ".wiki to _Sidebar.md it can be used as a sidebar.\n" ++
      "See https://github.com/gollum/gollum/wiki for more information."
  else
    "The following pragma has been ignored:\n\t#" ++ pragmaType ++ " " ++ pragmaValue ++
      "\nConsider expressing the same information in a different manner."

/-- `Converter._ExtractPragmas`: consume leading lines while `PRAGMA_RE`
matches, handing the stripped groups to `HandlePragma`; stop at the first
non-matching line. Returns the number of consumed lines and the emitted
warnings. -/
def ExtractPragmas : List String → Nat × List String
  | [] => (0, [])
  | l :: rest =>
    match pragmaMatch l with
    | none => (0, [])
    | some (t, v) =>
      let w := HandlePragma (pyStrip t) (pyStrip v)
      let r := ExtractPragmas rest
      (r.1 + 1, w :: r.2)

/-- C3 counterexample: the leading line `#foo bar` is pragma-shaped but its
type is not a recognized pragma name, and the extractor consumes zero
lines and emits zero warnings — not one "ignored pragma" warning as
claimed (the line is left to the body instead). -/
theorem ExtractPragmas_unknown_counterexample :
    ExtractPragmas ["#foo bar\n"] = (0, []) ∧
    ¬((ExtractPragmas ["#foo bar\n"]).2.length = 1) := by
  constructor
  · rfl
  · intro h
    simp [ExtractPragmas, pragmaMatch, PRAGMA_NAMES] at h

/-- C3 amended: a leading line that `PRAGMA_RE` does not match (in
particular any `#<type>` line whose type does not start with `summary`,
`labels` or `sidebar`) stops pragma extraction with zero lines consumed
and zero warnings; the "ignored pragma" warning is emitted, exactly once
per line, for regex-recognized pragma types without a dedicated message —
that is, for `#labels` lines. -/
theorem ExtractPragmas_unknown (l : String) (rest : List String)
    (h : pragmaMatch l = none) :
    ExtractPragmas (l :: rest) = (0, []) ∧
    ExtractPragmas ["#labels x\n"] =
      (1, ["The following pragma has been ignored:\n\t#labels x\n" ++
        "Consider expressing the same information in a different manner."]) := by
  constructor
  · simp [ExtractPragmas, h]
  · rfl

/-- Witness for C3 at the concrete non-pragma line `#foo bar`. -/
theorem ExtractPragmas_unknown_witness :
    ExtractPragmas ["#foo bar\n", "body"] = (0, []) ∧
    ExtractPragmas ["#labels x\n"] =
      (1, ["The following pragma has been ignored:\n\t#labels x\n" ++
        "Consider expressing the same information in a different manner."]) :=
  ExtractPragmas_unknown "#foo bar\n" ["body"] rfl

/-! ### C7: headings (`Converter._HandleHeading`,
`FormattingHandler.HandleHeaderOpen`) -/

/-- The `leftequalcount` loop of `_HandleHeading`: leading `=` characters. -/
def leftEq (s : String) : Nat := (s.data.takeWhile (fun c => c = '=')).length

/-- The `rightequalcount` loop of `_HandleHeading`: trailing `=` characters. -/
def rightEq (s : String) : Nat :=
  (s.data.reverse.takeWhile (fun c => c = '=')).length

/-- Python slice `m[l:-r]` as used for `heading_text` (note `-0` is `0`, so
`r = 0` yields the empty string, as in Python). -/
def pySliceLR (m : String) (l r : Nat) : String :=
  if r = 0 then "" else String.mk ((m.data.take (m.data.length - r)).drop l)

/-- `FormattingHandler.HandleHeaderOpen`: in HTML mode open an `h<level>`
element, otherwise write `"#" * header_level` followed by one space. -/
def HandleHeaderOpen (inHtml : Nat) (headerLevel : Nat) : List Ev :=
  if inHtml ≠ 0 then [Ev.htmlOpen ("h" ++ toString headerLevel)]
  else [Ev.write (String.mk (List.replicate headerLevel '#') ++ " ")]

/-- `Converter._HandleHeading`: strip the match, count the `=` signs on
both sides, take the level from the left count alone (`None`, meaning no
header markup, above 6), slice out the heading text and re-dispatch it
through the inline rules (the `Ev.dispatchText` event models the recursive
`_ProcessMatch` call); header open/close events only when
`if header_level:` is truthy. -/
def HandleHeading (m0 : String) : List Ev :=
  let m := pyStrip m0
  let leftequalcount := leftEq m
  let rightequalcount := rightEq m
  let headerLevel : Option Nat :=
    if 6 < leftequalcount then none else some leftequalcount
  let headingText := pyStrip (pySliceLR m leftequalcount rightequalcount)
  match headerLevel with
  | some lvl =>
    if lvl ≠ 0 then
      [Ev.headerOpen lvl, Ev.dispatchText headingText, Ev.headerClose lvl]
    else [Ev.dispatchText headingText]
  | none => [Ev.dispatchText headingText]

/-- C7: the emitted header level is the count of leading `=` characters —
the trailing count plays no part in the level, only in slicing the heading
text — and a leading count above 6 yields no header-open or header-close
at all while the heading text is still dispatched through the inline
rules; in Markdown mode the open event writes `#` repeated `level` times. -/
theorem HandleHeading_level (m0 : String) (hpos : 1 ≤ leftEq (pyStrip m0)) :
    (leftEq (pyStrip m0) ≤ 6 →
      HandleHeading m0 =
        [Ev.headerOpen (leftEq (pyStrip m0)),
          Ev.dispatchText (pyStrip (pySliceLR (pyStrip m0) (leftEq (pyStrip m0))
            (rightEq (pyStrip m0)))),
          Ev.headerClose (leftEq (pyStrip m0))]) ∧
    (6 < leftEq (pyStrip m0) →
      HandleHeading m0 =
        [Ev.dispatchText (pyStrip (pySliceLR (pyStrip m0) (leftEq (pyStrip m0))
          (rightEq (pyStrip m0))))]) ∧
    HandleHeaderOpen 0 (leftEq (pyStrip m0)) =
      [Ev.write (String.mk (List.replicate (leftEq (pyStrip m0)) '#') ++ " ")] := by
  refine ⟨?_, ?_, rfl⟩
  · intro h6
    simp only [HandleHeading]
    rw [if_neg (by omega)]
    simp only []
    rw [if_pos (by omega)]
  · intro h6
    simp only [HandleHeading]
    rw [if_pos h6]

/-- Witness for C7 at the asymmetric heading `== Hi =` (level 2) and the
overlong heading `======= Big =` (seven leading `=`, no header markup). -/
theorem HandleHeading_level_witness :
    (HandleHeading "== Hi =" =
      [Ev.headerOpen 2, Ev.dispatchText "Hi", Ev.headerClose 2]) ∧
    (HandleHeading "======= Big =" = [Ev.dispatchText "Big"]) :=
  ⟨by
    have h := (HandleHeading_level "== Hi =" (by decide)).1 (by decide)
    simpa using h,
   by
    have h := (HandleHeading_level "======= Big =" (by decide)).2.1 (by decide)
    simpa using h⟩

/-! ### C8: variable substitution (`Converter._HandleVariable`) -/

/-- Association-list lookup, modelling `name in params` / `params[name]`. -/
def lookupParam : List (String × String) → String → Option String
  | [], _ => none
  | (k, v) :: rest, n => if k = n then some v else lookupParam rest n

/-- The plugin-stack search loop of `_HandleVariable`: walk the stack from
the innermost entry (the head here, `reversed(self._plugin_stack)` in
Python) and stop at the first plugin whose parameters contain the name,
returning that value regardless of its content. -/
def findParam : List (String × List (String × String)) → String → Option String
  | [], _ => none
  | (_, params) :: rest, n =>
    match lookupParam params n with
    | some v => some v
    | none => findParam rest n

/-- The warning text of `_HandleVariable`. -/
def varWarn (name instructions : String) : String :=
  "A variable substitution was performed with %%" ++ name ++ "%%. " ++ instructions

/-- `Converter._HandleVariable`: use the innermost plugin parameter if its
value is truthy (Python `if value:` — the empty string falls through);
otherwise substitute the well-known globals `username`, `email`,
`project` with placeholder text and a warning; otherwise re-emit
`%%name%%`. The output goes through `HandleEscapedText`
(`Ev.escapedText`); the second component is the optional warning. -/
def HandleVariable (pluginStack : List (String × List (String × String)))
    (project : Option String) (name : String) : Ev × Option String :=
  let value := findParam pluginStack name
  let output0 : Option String :=
    match value with
    | some v => if v = "" then none else some v
    | none => none
  match output0 with
  | some v => (Ev.escapedText v, none)
  | none =>
    if name = "username" then
      (Ev.escapedText "(TODO: Replace with username.)",
        some (varWarn name ("On Google Code this would have been replaced with the " ++
          "username of the current user, but GitHub has no direct support for " ++
          "equivalent behavior. It has been replaced with\n\t" ++
          "(TODO: Replace with username.)\nConsider removing this altogether.")))
    else if name = "email" then
      (Ev.escapedText "(TODO: Replace with email address.)",
        some (varWarn name ("On Google Code this would have been replaced with the " ++
          "email address of the current user, but GitHub has no direct support for " ++
          "equivalent behavior. It has been replaced with\n\t" ++
          "(TODO: Replace with email address.)\nConsider removing this altogether.")))
    else if name = "project" then
      match project with
      | some proj =>
        (Ev.escapedText proj,
          some (varWarn name ("It has been replaced with static text containing " ++
            "the name of the project:\n\t" ++ proj)))
      | none =>
        (Ev.escapedText "(TODO: Replace with project name.)",
          some (varWarn name ("Because no project name was specified, the text " ++
            "has been replaced with:\n\t(TODO: Replace with project name.)")))
    else (Ev.escapedText ("%%" ++ name ++ "%%"), none)

/-- C8 counterexample: the innermost plugin defines `x` with the empty
string; the claim says the empty value is emitted literally, but the code
falls through (Python `if value:` is false for `""`) and re-emits
`%%x%%`. -/
theorem HandleVariable_empty_counterexample :
    HandleVariable [("div", [("x", "")])] none "x" =
      (Ev.escapedText "%%x%%", none) ∧
    Ev.escapedText "%%x%%" ≠ Ev.escapedText "" := ⟨rfl, by decide⟩

/-- C8 amended: if the innermost plugin-stack definition of the name has a
non-empty value, that value is routed to the Markdown-escaping text
emitter with no warning; if the search finds nothing or finds the empty
string, and the name is none of `username`, `email`, `project`, the
original `%%name%%` text is routed to the same escaping emitter with no
substitution and no warning. -/
theorem HandleVariable_cases (stack : List (String × List (String × String)))
    (project : Option String) (name v : String) :
    (findParam stack name = some v → v ≠ "" →
      HandleVariable stack project name = (Ev.escapedText v, none)) ∧
    ((findParam stack name = none ∨ findParam stack name = some "") →
      name ≠ "username" → name ≠ "email" → name ≠ "project" →
      HandleVariable stack project name =
        (Ev.escapedText ("%%" ++ name ++ "%%"), none)) := by
  constructor
  · intro hf hv
    simp only [HandleVariable, hf]
    rw [if_neg hv]
  · intro hf h1 h2 h3
    rcases hf with hf | hf <;>
      simp [HandleVariable, hf, h1, h2, h3]

/-- Witness for C8: a non-empty innermost value `val` is emitted, and the
unknown name `foo` is re-emitted as `%%foo%%`. -/
theorem HandleVariable_cases_witness :
    HandleVariable [("q", [("x", "val")])] none "x" =
      (Ev.escapedText "val", none) ∧
    HandleVariable [] none "foo" =
      (Ev.escapedText ("%%" ++ "foo" ++ "%%"), none) :=
  ⟨(HandleVariable_cases [("q", [("x", "val")])] none "x" "val").1 rfl (by decide),
   (HandleVariable_cases [] none "foo" "val").2 (Or.inl rfl)
     (by decide) (by decide) (by decide)⟩

/-! ### C9: plugin close tags (`Converter._HandlePluginEnd`) -/

/-- Characters matched by `constants.PLUGIN_NAME` (`[a-zA-Z0-9_\-]`). -/
def isPluginNameChar (c : Char) : Bool :=
  (('a' ≤ c ∧ c ≤ 'z') ∨ ('A' ≤ c ∧ c ≤ 'Z') ∨ ('0' ≤ c ∧ c ≤ '9') ∨
    c = '_' ∨ c = '-')

/-- `constants.PLUGIN_ID_RE.match(core).group(0)`: the regex
`(name:)?name` anchored at the start of `core` — an optional
namespace-and-colon followed by a name. On the core of a matched
`PLUGIN_END` tag this always succeeds and consumes the whole id. -/
def pluginIdOf (core : String) : String :=
  let first := core.data.takeWhile isPluginNameChar
  let rest := core.data.drop first.length
  match rest with
  | ':' :: r2 =>
    let second := r2.takeWhile isPluginNameChar
    if first ≠ [] ∧ second ≠ [] then String.mk (first ++ [':'] ++ second)
    else String.mk first
  | _ => String.mk first

/-- Python `plugin_id.split(":", 1)[-1]`: the text after the first colon,
or the whole string when there is no colon. -/
def afterFirstColon (s : String) : String :=
  match s.data.dropWhile (fun c => c ≠ ':') with
  | ':' :: rest => String.mk rest
  | _ => s

/-- Python `match[2:-1]`: the core of a `</id>` end tag. -/
def pluginEndCore (m : String) : String :=
  String.mk ((m.data.take (m.data.length - 1)).drop 2)

/-- `Converter._HandlePluginEnd`: extract the plugin id from the tag text;
if it matches the top of `_plugin_stack`, pop it and emit the
classification-specific close behavior; otherwise warn once, emit the
"Unknown end tag" literal (with the namespace stripped from the id), and
leave the stack untouched. Returns the new stack, the emitted output
events, and the emitted warnings. -/
def HandlePluginEnd (pluginStack : List (String × List (String × String)))
    (m : String) :
    List (String × List (String × String)) × List Ev × List String :=
  let core := pluginEndCore m
  let pluginId := pluginIdOf core
  let unmatched :=
    (pluginStack,
      [Ev.escapedText ("\n\nUnknown end tag for </" ++ afterFirstColon pluginId ++
        ">\n\n")],
      ["Unknown/unmatched plugin end was given, outputting " ++
        "as plain text with errors:\n\t" ++ m])
  match pluginStack with
  | [] => unmatched
  | top :: rest =>
    if top.1 = pluginId then
      if pluginId ∈ ALLOWED_HTML_TAGS then
        if pluginId = "code" then (rest, [Ev.codeBlockClose], [])
        else (rest, [Ev.htmlClose pluginId], [])
      else if pluginId = "g:plusone" then (rest, [Ev.gplusClose], [])
      else if pluginId = "wiki:comment" then (rest, [Ev.commentClose], [])
      else if pluginId = "wiki:gadget" then (rest, [Ev.escapedText m], [])
      else if pluginId = "wiki:video" then (rest, [Ev.videoClose], [])
      else if pluginId = "wiki:toc" then (rest, [], [])
      else
        (rest, [Ev.escapedText ("\n\n" ++ m ++ "\n\n")],
          ["Unknown but matching plugin end was given, outputting " ++
            "as plain text:\n\t" ++ m])
    else unmatched

/-- C9: a plugin close tag whose id does not equal the id on top of the
plugin stack (including an empty stack) emits exactly one warning, emits
the explicit "Unknown end tag" literal marker, and leaves the plugin
stack exactly as it was. -/
theorem HandlePluginEnd_unmatched (pluginStack : List (String × List (String × String)))
    (m : String)
    (h : pluginStack.head?.map Prod.fst ≠ some (pluginIdOf (pluginEndCore m))) :
    HandlePluginEnd pluginStack m =
      (pluginStack,
        [Ev.escapedText ("\n\nUnknown end tag for </" ++
          afterFirstColon (pluginIdOf (pluginEndCore m)) ++ ">\n\n")],
        ["Unknown/unmatched plugin end was given, outputting " ++
          "as plain text with errors:\n\t" ++ m]) ∧
    (HandlePluginEnd pluginStack m).2.2.length = 1 ∧
    StrContains ("\n\nUnknown end tag for </" ++
      afterFirstColon (pluginIdOf (pluginEndCore m)) ++ ">\n\n") "Unknown end tag" := by
  have hmain : HandlePluginEnd pluginStack m =
      (pluginStack,
        [Ev.escapedText ("\n\nUnknown end tag for </" ++
          afterFirstColon (pluginIdOf (pluginEndCore m)) ++ ">\n\n")],
        ["Unknown/unmatched plugin end was given, outputting " ++
          "as plain text with errors:\n\t" ++ m]) := by
    cases pluginStack with
    | nil => rfl
    | cons top rest =>
      have hne : top.1 ≠ pluginIdOf (pluginEndCore m) := by
        intro hEq
        exact h (by simp [hEq])
      simp only [HandlePluginEnd]
      rw [if_neg hne]
  refine ⟨hmain, by simp [hmain], ?_⟩
  exact strContains_appendL "\n\nUnknown end tag for </"
    (afterFirstColon (pluginIdOf (pluginEndCore m)) ++ ">\n\n")
    "Unknown end tag" (by decide)

/-- Witness for C9: closing `</i>` while `b` is on top of the stack. -/
theorem HandlePluginEnd_unmatched_witness :
    HandlePluginEnd [("b", [])] "</i>" =
      ([("b", [])],
        [Ev.escapedText ("\n\nUnknown end tag for </" ++
          afterFirstColon (pluginIdOf (pluginEndCore "</i>")) ++ ">\n\n")],
        ["Unknown/unmatched plugin end was given, outputting " ++
          "as plain text with errors:\n\t" ++ "</i>"]) ∧
    (HandlePluginEnd [("b", [])] "</i>").2.2.length = 1 ∧
    StrContains ("\n\nUnknown end tag for </" ++
      afterFirstColon (pluginIdOf (pluginEndCore "</i>")) ++ ">\n\n")
      "Unknown end tag" :=
  HandlePluginEnd_unmatched [("b", [])] "</i>" (by decide)

/-! ### C6: issue auto-linking (`FormattingHandler.HandleIssue`) -/

/-- Python `url.rsplit("/", 1)[1]`: the text after the last slash; with no
slash at all the Python expression raises `IndexError` (modelled by
`none`). -/
def rsplitAfterSlash (url : String) : Option String :=
  if url.data.contains '/' then
    some (String.mk (url.data.reverse.takeWhile (fun c => c ≠ '/')).reverse)
  else none

/-- The final warning text of `HandleIssue`. -/
def issueWarn (issue instructions : String) : String :=
  "Issue " ++ issue ++ " was auto-linked. " ++ instructions

/-- Instructions when the issue was found in the migration map. -/
def instrMigrated (migratedIssue : String) : String :=
  "In the output, it has been linked to the migrated issue " ++
    "on GitHub: " ++ migratedIssue ++ ". Please verify this issue on GitHub " ++
    "corresponds to the original issue on Google Code. "

/-- Instructions when a non-empty map does not contain the issue. -/
def instrNotFound : String :=
  "However, it was not found in the issue migration map; " ++
    "please verify that this issue has been correctly " ++
    "migrated to GitHub and that the issue mapping is put " ++
    "in the issue migration map file. "

/-- Instructions when no issue migration map was supplied at all. -/
def instrNoMap : String :=
  "However, no issue migration map was specified. You " ++
    "can use issue_migration.py to migrate your Google " ++
    "Code issues to GitHub, and supply the resulting issue " ++
    "migration map file to this converter. Your old issues " ++
    "will be auto-linked to your migrated issues. "

/-- Instructions appended when falling back to the legacy tracker link. -/
def instrOldLink (oldLink : String) : String :=
  "As a placeholder, the text has been modified to " ++
    "link to the original Google Code issue page:\n\t" ++ oldLink

/-- Instructions appended when no project name is configured. -/
def instrNoProject : String :=
  "Additionally, because no project name was specified " ++
    "the issue could not be linked to the original Google " ++
    "Code issue page."

/-- Instructions appended when the auto-link is removed entirely. -/
def instrRemoved (pre issue output : String) : String :=
  "The auto-link has been removed and the text has been " ++
    "modified from \x27" ++ pre ++ issue ++ "\x27 to \x27" ++ output ++ "\x27."

/-- `FormattingHandler.HandleIssue`: prefer the issue-migration map (when
non-empty — Python `if self._issue_map and issue in self._issue_map`),
linking to the mapped URL with the text after its last slash as the
migrated number; otherwise link to the legacy Google Code tracker URL when
a project name is configured; otherwise write the unlinked literal
`prefix + issue + " (on Google Code)"`. Exactly one warning is emitted in
every case. `none` models the uncaught `IndexError` of
`migrated_issue_url.rsplit("/", 1)[1]` on a mapped URL without a slash. -/
def HandleIssue (issueMap : List (String × String)) (project : Option String)
    (pre issue : String) : Option (List Ev × String) :=
  match (if issueMap = [] then none else issueMap.lookup issue) with
  | some url =>
    match rsplitAfterSlash url with
    | none => none
    | some migratedIssue =>
      some ([Ev.link url (some (pre ++ migratedIssue))],
        issueWarn issue (instrMigrated migratedIssue))
  | none =>
    let instructions := if issueMap ≠ [] then instrNotFound else instrNoMap
    match project with
    | some proj =>
      let oldLink := "https://code.google.com/p/" ++ proj ++ "/issues/detail?id=" ++ issue
      some ([Ev.link oldLink (some (pre ++ issue))],
        issueWarn issue (instructions ++ instrOldLink oldLink))
    | none =>
      let output := pre ++ issue ++ " (on Google Code)"
      some ([Ev.write output],
        issueWarn issue ((instructions ++ instrNoProject) ++ instrRemoved pre issue output))

/-- C6 counterexample: with no map entry and no project name, the emitted
literal is `"Issue 123 (on Google Code)"` — the prefix that preceded the
number in the source text is part of the output, so the output is not the
claimed bare `"123 (on Google Code)"`. -/
theorem HandleIssue_prefix_counterexample :
    (HandleIssue [] none "Issue " "123").map (fun r => r.1) =
      some [Ev.write "Issue 123 (on Google Code)"] ∧
    "Issue 123 (on Google Code)" ≠ "123 (on Google Code)" := ⟨rfl, by decide⟩

/-- C6 amended: `HandleIssue` behaves by cases: a number found in a
non-empty map (with a slash in the mapped URL) yields a link to the mapped
URL with the prefix retained in the link text and a warning containing
"migrated issue"; a number absent from a non-empty map with a project name
yields a link to the legacy tracker URL and a warning containing
"not found in the issue migration map"; with no applicable map entry and
no project name the unlinked literal `prefix + number + " (on Google
Code)"` is written. -/
theorem HandleIssue_cases (issueMap : List (String × String))
    (project : Option String) (proj pre issue url mi : String) :
    (issueMap ≠ [] → issueMap.lookup issue = some url →
      rsplitAfterSlash url = some mi →
      HandleIssue issueMap project pre issue =
        some ([Ev.link url (some (pre ++ mi))],
          issueWarn issue (instrMigrated mi)) ∧
      StrContains (issueWarn issue (instrMigrated mi)) "migrated issue") ∧
    (issueMap ≠ [] → issueMap.lookup issue = none →
      HandleIssue issueMap (some proj) pre issue =
        some ([Ev.link ("https://code.google.com/p/" ++ proj ++
            "/issues/detail?id=" ++ issue) (some (pre ++ issue))],
          issueWarn issue (instrNotFound ++ instrOldLink
            ("https://code.google.com/p/" ++ proj ++ "/issues/detail?id=" ++ issue))) ∧
      StrContains (issueWarn issue (instrNotFound ++ instrOldLink
        ("https://code.google.com/p/" ++ proj ++ "/issues/detail?id=" ++ issue)))
        "not found in the issue migration map") ∧
    ((if issueMap = [] then none else issueMap.lookup issue) = none →
      HandleIssue issueMap none pre issue =
        some ([Ev.write (pre ++ issue ++ " (on Google Code)")],
          issueWarn issue
            (((if issueMap ≠ [] then instrNotFound else instrNoMap) ++ instrNoProject) ++
              instrRemoved pre issue (pre ++ issue ++ " (on Google Code)")))) := by
  refine ⟨?_, ?_, ?_⟩
  · intro hne hl hr
    constructor
    · simp only [HandleIssue, if_neg hne, hl, hr]
    · unfold issueWarn
      refine strContains_appendR _ _ _ ?_
      unfold instrMigrated
      refine strContains_appendL _ _ _ ?_
      refine strContains_appendL _ _ _ ?_
      refine strContains_appendL _ _ _ ?_
      refine strContains_appendL _ _ _ ?_
      decide
  · intro hne hl
    constructor
    · simp only [HandleIssue, if_neg hne, hl, if_pos hne]
    · unfold issueWarn
      refine strContains_appendR _ _ _ ?_
      refine strContains_appendL _ _ _ ?_
      unfold instrNotFound
      refine strContains_appendL _ _ _ ?_
      refine strContains_appendL _ _ _ ?_
      refine strContains_appendL _ _ _ ?_
      decide
  · intro hl
    simp only [HandleIssue, hl]

/-- Witness for C6: one concrete instance of each of the three cases. -/
theorem HandleIssue_cases_witness :
    (HandleIssue [("7", "https://github.com/o/r/issues/9")] none "Issue " "7" =
        some ([Ev.link "https://github.com/o/r/issues/9" (some ("Issue " ++ "9"))],
          issueWarn "7" (instrMigrated "9")) ∧
      StrContains (issueWarn "7" (instrMigrated "9")) "migrated issue") ∧
    (HandleIssue [("7", "https://github.com/o/r/issues/9")] (some "proj") "Issue " "8" =
        some ([Ev.link ("https://code.google.com/p/" ++ "proj" ++
            "/issues/detail?id=" ++ "8") (some ("Issue " ++ "8"))],
          issueWarn "8" (instrNotFound ++ instrOldLink
            ("https://code.google.com/p/" ++ "proj" ++ "/issues/detail?id=" ++ "8"))) ∧
      StrContains (issueWarn "8" (instrNotFound ++ instrOldLink
        ("https://code.google.com/p/" ++ "proj" ++ "/issues/detail?id=" ++ "8")))
        "not found in the issue migration map") ∧
    HandleIssue [] none "Issue " "3" =
      some ([Ev.write ("Issue " ++ "3" ++ " (on Google Code)")],
        issueWarn "3"
          (((if ([] : List (String × String)) ≠ [] then instrNotFound else instrNoMap) ++
              instrNoProject) ++
            instrRemoved "Issue " "3" ("Issue " ++ "3" ++ " (on Google Code)"))) := by
  refine ⟨?_, ?_, ?_⟩
  · have h := (HandleIssue_cases [("7", "https://github.com/o/r/issues/9")] none
      "x" "Issue " "7" "https://github.com/o/r/issues/9" "9").1
      (by decide) (by decide) (by decide)
    exact h
  · have h := (HandleIssue_cases [("7", "https://github.com/o/r/issues/9")] none
      "proj" "Issue " "8" "u" "m").2.1 (by decide) (by decide)
    exact h
  · have h := (HandleIssue_cases [] none "p" "Issue " "3" "u" "m").2.2 (by decide)
    exact h

end WikiToMd
